import Mathlib

/-!
Verification of the streaming speech-analysis pipeline (segmenter, sentiment
cache, event distribution hub, telemetry aggregator) against its
natural-language specification.  The Python source is embedded shallowly:
wall-clock reads (`datetime.now()`) occurring inside a single call are
modelled by one explicit rational parameter `now`, datetimes and float
durations become rationals, Python exceptions become `Except` values, and
mutable objects become explicit state records threaded through the
functions.
-/

namespace HappyChatty

/-- Python `str.strip()` on the character list: drop leading and trailing
whitespace. -/
def pyStripChars (cs : List Char) : List Char :=
  ((cs.dropWhile Char.isWhitespace).reverse.dropWhile Char.isWhitespace).reverse

/-- Python `str.strip()`. -/
def pyStrip (s : String) : String :=
  String.mk (pyStripChars s.data)

/-- Python `str.lower()` (ASCII-faithful). -/
def pyLower (s : String) : String :=
  String.mk (s.data.map Char.toLower)

/-- Helper for `pySplit`: split a character list on whitespace runs,
accumulating the current word in reverse. -/
def pySplitAux : List Char → List Char → List String
  | [], cur => if cur.isEmpty then [] else [String.mk cur.reverse]
  | c :: cs, cur =>
    if c.isWhitespace then
      if cur.isEmpty then pySplitAux cs []
      else String.mk cur.reverse :: pySplitAux cs []
    else pySplitAux cs (c :: cur)

/-- Python `str.split()` with no argument: split on whitespace runs and drop
empty pieces. -/
def pySplit (s : String) : List String :=
  pySplitAux s.data []

/-- Python `sep.join(words)`. -/
def pyJoin (sep : String) : List String → String
  | [] => ""
  | [w] => w
  | w :: ws => w ++ sep ++ pyJoin sep ws

/-- Membership test used for Python `pat in s` on strings: does the
character list start with the pattern? -/
def startsWithChars : List Char → List Char → Bool
  | [], _ => true
  | _ :: _, [] => false
  | p :: ps, c :: cs => p == c && startsWithChars ps cs

/-- Helper for `strHasSub`: does the pattern occur at any position? -/
def hasSubAux (pat : List Char) : List Char → Bool
  | [] => pat.isEmpty
  | c :: cs => startsWithChars pat (c :: cs) || hasSubAux pat cs

/-- Python `pat in s` substring containment on strings. -/
def strHasSub (s pat : String) : Bool :=
  hasSubAux pat.data s.data

/-!
Utterance segmenter, embedded from `utterance_segmenter.py`.  Absolute
datetimes are rationals (seconds); the two `datetime.now()` reads in
`process_segments` and the reads in the timeout and pause computations are
modelled by the single parameter `now` of the processing call.
-/

/-- Dataclass `TranscriptionSegment` from `transcription_engine.py`. -/
structure TranscriptionSegment where
  text : String
  speaker : String
  start_time : ℚ
  end_time : ℚ
  confidence : ℚ
deriving DecidableEq, Repr

/-- Dataclass `Utterance` from `utterance_segmenter.py`; `start_time` and
`end_time` are absolute times in seconds. -/
structure Utterance where
  speaker : String
  text : String
  start_time : ℚ
  end_time : ℚ
  confidence : ℚ
  pause_duration : ℚ := 0
deriving DecidableEq, Repr

/-- Property `Utterance.duration`: `(end_time - start_time).total_seconds()`. -/
def Utterance.duration (u : Utterance) : ℚ :=
  u.end_time - u.start_time

/-- Constant `min_pause_duration` set in `UtteranceSegmenter.__init__`. -/
def min_pause_duration : ℚ := 1/2

/-- Constant `max_utterance_duration` set in `UtteranceSegmenter.__init__`. -/
def max_utterance_duration : ℚ := 10

/-- Constant `min_utterance_duration` set in `UtteranceSegmenter.__init__`. -/
def min_utterance_duration : ℚ := 3/10

/-- Mutable state of `UtteranceSegmenter` (the `pending_segments` attribute
is written once and never read, so it is not modelled). -/
structure SegmenterState where
  current_utterance : Option Utterance
  last_activity_time : Option ℚ
deriving DecidableEq, Repr

/-- Fresh segmenter state produced by `UtteranceSegmenter.__init__`. -/
def initialSegmenterState : SegmenterState :=
  { current_utterance := none, last_activity_time := none }

/-- Method `_should_start_new_utterance`. -/
def should_start_new_utterance (st : SegmenterState) (seg : TranscriptionSegment)
    (segment_start : ℚ) : Bool :=
  match st.current_utterance with
  | none => true
  | some u =>
    if seg.speaker ≠ u.speaker then true
    else if (match st.last_activity_time with
             | some t => decide (segment_start - t ≥ min_pause_duration)
             | none => false) then true
    else if segment_start - u.start_time ≥ max_utterance_duration then true
    else false

/-- Method `_continue_current_utterance`: append text space-joined, advance
the end time, and average the confidence only when the current confidence is
positive. -/
def continue_current_utterance (st : SegmenterState) (seg : TranscriptionSegment)
    (segment_end : ℚ) : SegmenterState :=
  match st.current_utterance with
  | none => st
  | some u =>
    let text :=
      if u.text ≠ "" ∧ seg.text ≠ "" then u.text ++ " " ++ seg.text
      else if seg.text ≠ "" then seg.text
      else u.text
    let conf :=
      if u.confidence > 0 then (u.confidence + seg.confidence) / 2
      else seg.confidence
    { st with
      current_utterance :=
        some { u with text := text, end_time := segment_end, confidence := conf } }

/-- The `filler_words` set in `UtteranceSegmenter._clean_text`. -/
def filler_words : List String := ["uh", "um", "like", "you know", "so", "actually"]

/-- Method `_clean_text`: collapse whitespace, then drop filler words
case-insensitively. -/
def clean_text (text : String) : String :=
  let collapsed := pyJoin " " (pySplit text)
  let words := pySplit collapsed
  let cleaned := words.filter (fun w => !(filler_words.contains (pyLower w)))
  pyJoin " " cleaned

/-- Method `_finalize_current_utterance`: set the pause duration, discard the
candidate when it is shorter than `min_utterance_duration` or its raw
stripped text has fewer than 2 characters, and only then clean the text of
the surviving candidate. -/
def finalize_current_utterance (st : SegmenterState) (now : ℚ) :
    SegmenterState × Option Utterance :=
  match st.current_utterance with
  | none => (st, none)
  | some u0 =>
    let u := match st.last_activity_time with
      | some t => { u0 with pause_duration := now - t }
      | none => u0
    if u.duration < min_utterance_duration then
      ({ st with current_utterance := none }, none)
    else if pyStrip u.text = "" ∨ (pyStrip u.text).length < 2 then
      ({ st with current_utterance := none }, none)
    else
      ({ st with current_utterance := none }, some { u with text := clean_text u.text })

/-- Method `_should_finalize_timeout`. -/
def should_finalize_timeout (st : SegmenterState) (now : ℚ) : Bool :=
  match st.current_utterance, st.last_activity_time with
  | some _, some t => decide (now - t ≥ 2)
  | _, _ => false

/-- One iteration of the `for segment in segments` loop body of
`process_segments`: derive absolute times from `now`, either start a new
utterance (finalizing the open one) or merge, then record the last activity
time. -/
def process_one_segment (st : SegmenterState) (now : ℚ)
    (seg : TranscriptionSegment) : SegmenterState × Option Utterance :=
  let segment_start := now - 2 + seg.start_time
  let segment_end := now - 2 + seg.end_time
  let stepped :=
    if should_start_new_utterance st seg segment_start then
      let fin := finalize_current_utterance st now
      ({ fin.1 with
         current_utterance :=
           some { speaker := seg.speaker, text := seg.text,
                  start_time := segment_start, end_time := segment_end,
                  confidence := seg.confidence } }, fin.2)
    else (continue_current_utterance st seg segment_end, none)
  ({ stepped.1 with last_activity_time := some segment_end }, stepped.2)

/-- Method `process_segments`: fold the loop body over the incoming
segments, then finalize the open utterance on timeout. -/
def process_segments (st : SegmenterState) (now : ℚ)
    (segs : List TranscriptionSegment) : SegmenterState × List Utterance :=
  let folded := segs.foldl
    (fun acc seg =>
      let step := process_one_segment acc.1 now seg
      (step.1, acc.2 ++ step.2.toList))
    (st, ([] : List Utterance))
  if folded.1.current_utterance.isSome && should_finalize_timeout folded.1 now then
    let fin := finalize_current_utterance folded.1 now
    (fin.1, folded.2 ++ fin.2.toList)
  else folded

/-!
Python exceptions raised by collaborators or sinks are modelled as values of
one error type; a `try`/`except` block becomes a `match` on the `Except`
result of the guarded action.
-/

/-- Exception values that occur in the embedded fragments of the program. -/
inductive PyException
  | collaboratorFailure
  | zeroDivision
  | connectionClosed
  | writeFailed
  | callbackFailed
deriving DecidableEq, Repr

/-!
Sentiment analysis, embedded from `sentiment_analyzer.py`.  A
`SentimentScores` dataclass instance is a total map from the fixed label set
to a rational score, absent labels defaulting to zero.  The randomness drawn
by `_mock_analysis` (`random.uniform(-0.1, 0.1)` per attribute) is made
explicit as a jitter function from labels to rationals.
-/

/-- The thirty emotion labels of the `SentimentScores` dataclass, in field
order. -/
inductive SentimentLabel
  | Happy | Joyful | Content | Enthusiastic | Helpful
  | Kind | Compassionate | Polite | Grateful | Sweet
  | Wholesome | Mischievous | Curious | Confused | Surprised
  | Sarcastic | Ironic | Teasing | Sad | Angry
  | Frustrated | Disappointed | Anxious | Rude | Ungrateful
  | Cruel | Hostile | Sleazy | Insulting | Threatening
deriving DecidableEq, Repr

/-- A sentiment score vector: the `SentimentScores()` dataclass with all
fields zero corresponds to `zeroScores`. -/
def zeroScores : SentimentLabel → ℚ := fun _ => 0

/-- The `positive_words` list in `SentimentAnalyzer._mock_analysis`. -/
def positive_words : List String :=
  ["good", "great", "happy", "love", "wonderful", "amazing", "fantastic"]

/-- The `negative_words` list in `SentimentAnalyzer._mock_analysis`. -/
def negative_words : List String :=
  ["bad", "terrible", "hate", "awful", "horrible", "angry", "sad"]

/-- Counting construct `sum(1 for word in ws if word in text_lower)`. -/
def keyword_hits (text_lower : String) (ws : List String) : ℕ :=
  (ws.filter (fun w => strHasSub text_lower w)).length

/-- Python `max(0.0, min(1.0, q))`. -/
def clampScore (q : ℚ) : ℚ := max 0 (min 1 q)

/-- The keyword-based scores assigned by `_mock_analysis` before the random
variation is applied. -/
def mock_base (pos neg : ℕ) : SentimentLabel → ℚ :=
  if pos > neg then
    fun l => match l with
      | SentimentLabel.Happy => min (8/10) ((pos : ℚ) * (2/10))
      | SentimentLabel.Content => min (6/10) ((pos : ℚ) * (15/100))
      | _ => 0
  else if neg > pos then
    fun l => match l with
      | SentimentLabel.Sad => min (8/10) ((neg : ℚ) * (2/10))
      | SentimentLabel.Frustrated => min (6/10) ((neg : ℚ) * (15/100))
      | _ => 0
  else
    fun l => match l with
      | SentimentLabel.Content => 1/2
      | _ => 0

/-- Method `SentimentAnalyzer._mock_analysis`: keyword-based base scores,
then for every attribute with a positive score a clamped random variation
drawn from `uniform(-0.1, 0.1)`, here supplied as the explicit jitter
function `rand`. -/
def mock_analysis (text : String) (rand : SentimentLabel → ℚ) : SentimentLabel → ℚ :=
  let tl := pyLower text
  let base := mock_base (keyword_hits tl positive_words) (keyword_hits tl negative_words)
  fun l => if base l > 0 then clampScore (base l + rand l) else base l

/-- Method `SentimentAnalyzer.analyze_utterance`: empty text yields the zero
vector, a missing API key yields the mock analysis, and an exception from
the API call is caught and also yields the mock analysis.  The outcome of
`_call_openrouter_api` (including its internal parse fallbacks) is the
explicit `api_outcome` argument. -/
def analyze_utterance (has_api_key : Bool) (text : String)
    (api_outcome : Except PyException (SentimentLabel → ℚ))
    (rand : SentimentLabel → ℚ) : SentimentLabel → ℚ :=
  if pyStrip text = "" then zeroScores
  else if !has_api_key then mock_analysis text rand
  else
    match api_outcome with
    | Except.ok s => s
    | Except.error _ => mock_analysis text rand

/-!
Sentiment cache, embedded from class `SentimentCache`.  A Python dict
preserves insertion order, so it is modelled as an association list ordered
by insertion; `next(iter(cache))` is the head key and `pop`-style deletion
of it is `drop 1`.  The value type is generic, as the dict stores arbitrary
objects.
-/

/-- Mutable state of `SentimentCache`. -/
structure SentimentCache (V : Type) where
  entries : List (String × V)
  max_size : ℕ

/-- Constructor `SentimentCache(max_size=1000)`. -/
def mkSentimentCache (V : Type) (max_size : ℕ := 1000) : SentimentCache V :=
  { entries := [], max_size := max_size }

/-- Python `dict.get(key)`: first (and by the dict invariant only) binding
of the key. -/
def dictGet {V : Type} : List (String × V) → String → Option V
  | [], _ => none
  | (k2, v) :: rest, k => if k2 == k then some v else dictGet rest k

/-- Python `key in dict`. -/
def dictContains {V : Type} (l : List (String × V)) (k : String) : Bool :=
  l.any (fun p => p.1 == k)

/-- Python `dict[key] = v`: update in place when the key is present
(keeping its insertion position), append otherwise. -/
def dictSet {V : Type} (l : List (String × V)) (k : String) (v : V) : List (String × V) :=
  if dictContains l k then l.map (fun p => if p.1 == k then (k, v) else p)
  else l ++ [(k, v)]

/-- Method `SentimentCache.get`: read-only lookup under the composite key
`speaker + ":" + text`; it does not touch the entry order. -/
def cache_get {V : Type} (c : SentimentCache V) (text speaker : String) : Option V :=
  dictGet c.entries (speaker ++ ":" ++ text)

/-- Method `SentimentCache.set`: when the dict already holds `max_size`
entries, delete the first-inserted key, then store under the composite
key. -/
def cache_set {V : Type} (c : SentimentCache V) (text speaker : String) (v : V) :
    SentimentCache V :=
  let key := speaker ++ ":" ++ text
  let entries := if c.entries.length ≥ c.max_size then c.entries.drop 1 else c.entries
  { c with entries := dictSet entries key v }

/-- Method `SentimentCache.size`. -/
def cache_size {V : Type} (c : SentimentCache V) : ℕ :=
  c.entries.length

/-!
Event distribution hub, embedded from `event_emitter.py`.  Each delivery
destination is modelled with an explicit `fails` flag saying whether the
underlying I/O action raises for this call; the raw action is `Except`
valued and the `try`/`except` handlers of the source become local matches.
The JSON/ISO-8601 serialization of an event and the telemetry context
manager around `emit_event` carry no information used by the claims and are
abstracted away.
-/

/-- Dataclass `AnalysisEvent`; `timestamp` keeps the utterance start time as
a rational instead of its ISO-8601 rendering, and the optional
`performance_metrics` payload is not modelled. -/
structure AnalysisEvent where
  timestamp : ℚ
  speaker : String
  text : String
  scores : SentimentLabel → ℚ
  duration : ℚ
  confidence : ℚ

/-- Classmethod `AnalysisEvent.from_utterance`. -/
def event_from_utterance (u : Utterance) (scores : SentimentLabel → ℚ) : AnalysisEvent :=
  { timestamp := u.start_time, speaker := u.speaker, text := u.text,
    scores := scores, duration := u.duration, confidence := u.confidence }

/-- A live WebSocket subscriber; `fails` models `websocket.send` raising for
this emit call. -/
structure WsClient where
  id : ℕ
  fails : Bool
deriving DecidableEq, Repr

/-- A registered local callback; `fails` models the callback raising. -/
structure CallbackSink where
  id : ℕ
  fails : Bool
deriving DecidableEq, Repr

/-- The durable file sink; `fails` models the file write raising, `written`
is the sequence of events appended so far. -/
structure FileSink where
  fails : Bool
  written : List AnalysisEvent

/-- Mutable state of `EventEmitter`. -/
structure EventEmitterState where
  websocket_clients : List WsClient
  file_output : Option FileSink
  callbacks : List CallbackSink
  event_history : List AnalysisEvent
  max_history : ℕ

/-- State produced by `EventEmitter.__init__`. -/
def initialEmitterState : EventEmitterState :=
  { websocket_clients := [], file_output := none, callbacks := [],
    event_history := [], max_history := 1000 }

/-- The raw `websocket.send` action of one subscriber. -/
def websocket_send (c : WsClient) (_e : AnalysisEvent) : Except PyException Unit :=
  if c.fails then Except.error PyException.connectionClosed else Except.ok ()

/-- Method `_broadcast_to_websockets`: send to every client, catching the
per-client exception, collecting failing clients and removing them after the
loop.  Returns the remaining clients and the ids that received the event. -/
def broadcast_to_websockets : List WsClient → AnalysisEvent → List WsClient × List ℕ
  | [], _ => ([], [])
  | c :: cs, e =>
    let rest := broadcast_to_websockets cs e
    match websocket_send c e with
    | Except.ok _ => (c :: rest.1, c.id :: rest.2)
    | Except.error _ => rest

/-- The raw appending file write inside `_write_to_file`. -/
def file_write (f : FileSink) (e : AnalysisEvent) : Except PyException FileSink :=
  if f.fails then Except.error PyException.writeFailed
  else Except.ok { f with written := f.written ++ [e] }

/-- Method `_write_to_file`: skip when no sink is configured; catch and log
a failing write, leaving the sink in place.  Returns the sink and whether
the event reached it. -/
def write_to_file : Option FileSink → AnalysisEvent → Option FileSink × Bool
  | none, _ => (none, false)
  | some f, e =>
    match file_write f e with
    | Except.ok f2 => (some f2, true)
    | Except.error _ => (some f, false)

/-- The raw invocation of one registered callback. -/
def callback_invoke (cb : CallbackSink) (_e : AnalysisEvent) : Except PyException Unit :=
  if cb.fails then Except.error PyException.callbackFailed else Except.ok ()

/-- Method `_call_callbacks`: invoke every callback, catching per-callback
exceptions.  Returns the ids of callbacks that received the event. -/
def call_callbacks : List CallbackSink → AnalysisEvent → List ℕ
  | [], _ => []
  | cb :: cbs, e =>
    match callback_invoke cb e with
    | Except.ok _ => cb.id :: call_callbacks cbs e
    | Except.error _ => call_callbacks cbs e

/-- The destinations an `emit_event` call actually reached. -/
structure Deliveries where
  ws : List ℕ
  file_written : Bool
  callback_ids : List ℕ
deriving DecidableEq, Repr

/-- Method `EventEmitter.emit_event`: append to history, popping the oldest
entry when the bound is exceeded, then deliver to WebSocket clients, file
sink and callbacks, each with its local exception handling. -/
def emit_event (s : EventEmitterState) (e : AnalysisEvent) :
    EventEmitterState × Deliveries :=
  let h0 := s.event_history ++ [e]
  let h := if h0.length > s.max_history then h0.drop 1 else h0
  let bc := broadcast_to_websockets s.websocket_clients e
  let fw := write_to_file s.file_output e
  let cbs := call_callbacks s.callbacks e
  ({ s with event_history := h, websocket_clients := bc.1, file_output := fw.1 },
   { ws := bc.2, file_written := fw.2, callback_ids := cbs })

/-- A sequence of `emit_event` calls, keeping the state. -/
def emit_events (s : EventEmitterState) (evs : List AnalysisEvent) : EventEmitterState :=
  evs.foldl (fun s e => (emit_event s e).1) s

/-- The loop body of `get_event_stats` building the `speakers` dict. -/
def bump_speaker (acc : List (String × ℕ)) (sp : String) : List (String × ℕ) :=
  if acc.any (fun p => p.1 == sp) then
    acc.map (fun p => if p.1 == sp then (p.1, p.2 + 1) else p)
  else acc ++ [(sp, 1)]

/-- The dictionary returned by `get_event_stats`; an `Option` field is
`none` exactly when the corresponding key is absent from the returned dict
(the `file_output` echo is not modelled). -/
structure EventStats where
  total_events : ℕ
  unique_speakers : Option ℕ
  speaker_counts : Option (List (String × ℕ))
  websocket_clients : Option ℕ
deriving DecidableEq, Repr

/-- Method `EventEmitter.get_event_stats`: with an empty history only
`{"total_events": 0}` is returned; otherwise the counts are computed over
the retained history. -/
def get_event_stats (s : EventEmitterState) : EventStats :=
  if s.event_history.isEmpty then
    { total_events := 0, unique_speakers := none, speaker_counts := none,
      websocket_clients := none }
  else
    let speakers := s.event_history.foldl (fun acc ev => bump_speaker acc ev.speaker) []
    { total_events := s.event_history.length,
      unique_speakers := some speakers.length,
      speaker_counts := some speakers,
      websocket_clients := some s.websocket_clients.length }

/-!
Telemetry aggregator, embedded from `performance_profiler.py`.  Python float
division raises `ZeroDivisionError` on a zero divisor, so division is
`Except` valued.
-/

/-- Dataclass `PerformanceMetrics` (the free-form `metadata` payload is not
involved in any computation and is not modelled). -/
structure PerformanceMetrics where
  component_name : String
  operation_name : String
  duration_ms : ℚ
  timestamp : ℚ
deriving DecidableEq, Repr

/-- The per-component statistics dict built by `get_component_stats`. -/
structure ComponentStats where
  component : String
  total_operations : ℕ
  avg_duration_ms : ℚ
  min_duration_ms : ℚ
  max_duration_ms : ℚ
  total_duration_ms : ℚ
  operations_per_second : ℚ
  last_operation_time : ℚ
deriving DecidableEq, Repr

/-- Python numeric division: raises `ZeroDivisionError` on a zero divisor. -/
def pyDiv (a b : ℚ) : Except PyException ℚ :=
  if b = 0 then Except.error PyException.zeroDivision else Except.ok (a / b)

/-- Python `sum` over rationals. -/
def pySum (l : List ℚ) : ℚ := l.foldl (· + ·) 0

/-- Python `min` over a list; the empty case is unreachable at its use
sites. -/
def pyListMin : List ℚ → ℚ
  | [] => 0
  | x :: xs => xs.foldl min x

/-- Python `max` over a list; the empty case is unreachable at its use
sites. -/
def pyListMax : List ℚ → ℚ
  | [] => 0
  | x :: xs => xs.foldl max x

/-- Method `PerformanceProfiler.get_component_stats`: zero statistics when
the component has no samples, otherwise averages over its samples; the
throughput entry divides 1000 by the average duration. -/
def get_component_stats (component_name : String)
    (metrics : List PerformanceMetrics) : Except PyException ComponentStats :=
  let cm := metrics.filter (fun m => m.component_name == component_name)
  if cm.isEmpty then
    Except.ok { component := component_name, total_operations := 0,
                avg_duration_ms := 0, min_duration_ms := 0, max_duration_ms := 0,
                total_duration_ms := 0, operations_per_second := 0,
                last_operation_time := 0 }
  else
    let durations := cm.map (fun m => m.duration_ms)
    let last_operation := pyListMax (cm.map (fun m => m.timestamp))
    match pyDiv (pySum durations) ((durations.length : ℚ)) with
    | Except.error err => Except.error err
    | Except.ok avg =>
      match pyDiv 1000 avg with
      | Except.error err => Except.error err
      | Except.ok ops =>
        Except.ok { component := component_name, total_operations := cm.length,
                    avg_duration_ms := avg, min_duration_ms := pyListMin durations,
                    max_duration_ms := pyListMax durations,
                    total_duration_ms := pySum durations,
                    operations_per_second := ops,
                    last_operation_time := last_operation }

/-!
Orchestrator, embedded from `main.py`.  The transcription collaborator
catches every exception of the underlying engine internally and returns an
empty fragment list (`transcribe_audio` in `transcription_engine.py`); the
sentiment collaborator catches API exceptions and falls back to the mock
analysis.  One iteration of the `_processing_loop` body (the
buffer-full branch) is a function of the collaborator outcomes; an
exception escaping the body would be logged and re-raised by the loop's
`except` clause, which the `Except` result type models.
-/

/-- Method `transcribe_audio` of the transcription engine: the outcome of
the underlying transcription work is the argument, and any exception is
caught and turned into an empty segment list. -/
def transcribe_audio
    (outcome : Except PyException (List TranscriptionSegment)) :
    List TranscriptionSegment :=
  match outcome with
  | Except.ok segs => segs
  | Except.error _ => []

/-- Method `SpeechAnalysisOrchestrator._process_utterance`: consult the
cache, on a miss run the sentiment collaborator and populate the cache, then
build and emit the analysis event. -/
def process_utterance (cache : SentimentCache (SentimentLabel → ℚ))
    (em : EventEmitterState) (u : Utterance) (has_api_key : Bool)
    (api_outcome : Except PyException (SentimentLabel → ℚ))
    (rand : SentimentLabel → ℚ) :
    SentimentCache (SentimentLabel → ℚ) × EventEmitterState :=
  match cache_get cache u.text u.speaker with
  | some scores => (cache, (emit_event em (event_from_utterance u scores)).1)
  | none =>
    let scores := analyze_utterance has_api_key u.text api_outcome rand
    let cache2 := cache_set cache u.text u.speaker scores
    (cache2, (emit_event em (event_from_utterance u scores)).1)

/-- One buffer-full iteration of `_processing_loop`: transcribe, and when
fragments came back, segment them and process each finalized utterance.  An
uncaught exception would surface as an `Except.error` (the loop logs and
re-raises). -/
def processing_iteration
    (tr_outcome : Except PyException (List TranscriptionSegment)) (now : ℚ)
    (st : SegmenterState) (cache : SentimentCache (SentimentLabel → ℚ))
    (em : EventEmitterState) (has_api_key : Bool)
    (api_outcome : String → String → Except PyException (SentimentLabel → ℚ))
    (rand : SentimentLabel → ℚ) :
    Except PyException
      (SegmenterState × SentimentCache (SentimentLabel → ℚ) × EventEmitterState) :=
  let segments := transcribe_audio tr_outcome
  if segments.isEmpty then Except.ok (st, cache, em)
  else
    let seg_result := process_segments st now segments
    let final := seg_result.2.foldl
      (fun acc u => process_utterance acc.1 acc.2 u has_api_key (api_outcome u.text u.speaker) rand)
      (cache, em)
    Except.ok (seg_result.1, final.1, final.2)

/-- A concrete event used by witnesses. -/
def sampleEvent : AnalysisEvent :=
  { timestamp := 0, speaker := "S1", text := "hello", scores := zeroScores,
    duration := 1, confidence := 1 }

/-- A concrete telemetry sample with duration 0 ms. -/
def zeroDurationMetric : PerformanceMetrics :=
  { component_name := "events", operation_name := "emit_event", duration_ms := 0,
    timestamp := 5 }

/-- A concrete telemetry sample with duration 5 ms. -/
def fiveMsMetric : PerformanceMetrics :=
  { component_name := "a", operation_name := "op", duration_ms := 5, timestamp := 7 }

/-!
Theorems.  Each claim of the specification is settled below; helper lemmas
come first.
-/

/-- Setting the pause duration leaves the duration unchanged. -/
theorem duration_set_pause (u : Utterance) (p : ℚ) :
    ({ u with pause_duration := p } : Utterance).duration = u.duration := rfl

/-- Setting the pause duration leaves the text unchanged. -/
theorem text_set_pause (u : Utterance) (p : ℚ) :
    ({ u with pause_duration := p } : Utterance).text = u.text := rfl

/-- An empty stripped text is in particular shorter than two characters. -/
theorem strip_short_of_empty {s : String} (h : pyStrip s = "") :
    (pyStrip s).length < 2 := by
  rw [h]; decide

/-- C2, corrected.  A finalized candidate is discarded exactly when its
duration is below 0.3 s or its raw text, stripped of surrounding
whitespace, has fewer than 2 characters; the filler-word cleaning runs only
after this validation, on the emitted utterance's text. -/
theorem finalize_validates_raw_text :
    ∀ (st : SegmenterState) (u : Utterance) (now : ℚ),
      st.current_utterance = some u →
      (((finalize_current_utterance st now).2 = none) ↔
        (u.duration < min_utterance_duration ∨ (pyStrip u.text).length < 2)) ∧
      (∀ v, (finalize_current_utterance st now).2 = some v →
        v.text = clean_text u.text ∧ 2 ≤ (pyStrip u.text).length ∧
        min_utterance_duration ≤ u.duration) := by
  intro st u now h
  obtain ⟨cu, la⟩ := st
  dsimp only at h
  subst h
  cases la with
  | none =>
    simp only [finalize_current_utterance]
    constructor
    · split_ifs with h1 h2
      · exact iff_of_true rfl (Or.inl h1)
      · refine iff_of_true rfl (Or.inr ?_)
        rcases h2 with h2 | h2
        · exact strip_short_of_empty h2
        · exact h2
      · refine iff_of_false (by simp) ?_
        push_neg at h2
        rintro (hc | hc)
        · exact h1 hc
        · exact absurd hc (by omega)
    · intro v hv
      split_ifs at hv with h1 h2
      push_neg at h2
      obtain ⟨-, h2len⟩ := h2
      have hx := Option.some.inj hv
      exact ⟨(congrArg Utterance.text hx).symm, by omega, not_lt.mp h1⟩
  | some t =>
    simp only [finalize_current_utterance, duration_set_pause, text_set_pause]
    constructor
    · split_ifs with h1 h2
      · exact iff_of_true rfl (Or.inl h1)
      · refine iff_of_true rfl (Or.inr ?_)
        rcases h2 with h2 | h2
        · exact strip_short_of_empty h2
        · exact h2
      · refine iff_of_false (by simp) ?_
        push_neg at h2
        rintro (hc | hc)
        · exact h1 hc
        · exact absurd hc (by omega)
    · intro v hv
      split_ifs at hv with h1 h2
      push_neg at h2
      obtain ⟨-, h2len⟩ := h2
      have hx := Option.some.inj hv
      exact ⟨(congrArg Utterance.text hx).symm, by omega, not_lt.mp h1⟩

/-- Witness for the corrected C2 theorem at a concrete open utterance. -/
theorem finalize_validates_raw_text_witness :
    (((finalize_current_utterance
          { current_utterance := some { speaker := "S1", text := "hi", start_time := 0,
                                        end_time := 1, confidence := 1, pause_duration := 0 },
            last_activity_time := none } 5).2 = none) ↔
      ((Utterance.duration { speaker := "S1", text := "hi", start_time := 0,
                             end_time := 1, confidence := 1, pause_duration := 0 })
          < min_utterance_duration ∨ (pyStrip "hi").length < 2)) ∧
    (Utterance.text { speaker := "S1", text := "hi", start_time := 0, end_time := 1,
                      confidence := 1, pause_duration := 0 } = clean_text "hi" ∧
      2 ≤ (pyStrip "hi").length ∧
      min_utterance_duration ≤
        Utterance.duration { speaker := "S1", text := "hi", start_time := 0,
                             end_time := 1, confidence := 1, pause_duration := 0 }) := by
  constructor
  · exact (finalize_validates_raw_text
      { current_utterance := some { speaker := "S1", text := "hi", start_time := 0,
                                    end_time := 1, confidence := 1, pause_duration := 0 },
        last_activity_time := none }
      { speaker := "S1", text := "hi", start_time := 0, end_time := 1,
        confidence := 1, pause_duration := 0 } 5 rfl).1
  · exact (finalize_validates_raw_text
      { current_utterance := some { speaker := "S1", text := "hi", start_time := 0,
                                    end_time := 1, confidence := 1, pause_duration := 0 },
        last_activity_time := none }
      { speaker := "S1", text := "hi", start_time := 0, end_time := 1,
        confidence := 1, pause_duration := 0 } 5 rfl).2
      { speaker := "S1", text := "hi", start_time := 0, end_time := 1,
        confidence := 1, pause_duration := 0 }
      (by
        have hstrip : pyStrip "hi" = "hi" := by decide
        have hclean : clean_text "hi" = "hi" := by decide
        have hcond : ¬(("hi" : String) = "" ∨ ("hi" : String).length < 2) := by decide
        simp only [finalize_current_utterance, Utterance.duration, min_utterance_duration,
          hstrip, hclean]
        norm_num [hcond])

/-- C2, counterexample to the claim as stated: an utterance whose raw text
is the filler word "uh" passes validation (stripped length 2, duration 1 s)
and is emitted with empty cleaned text, so finalization does emit an
utterance whose text is empty. -/
theorem finalize_emits_empty_text_cex :
    (finalize_current_utterance
        { current_utterance := some { speaker := "S1", text := "uh", start_time := 0,
                                      end_time := 1, confidence := 1, pause_duration := 0 },
          last_activity_time := none } 0).2 =
      some { speaker := "S1", text := "", start_time := 0, end_time := 1,
             confidence := 1, pause_duration := 0 } := by
  have hstrip : pyStrip "uh" = "uh" := by decide
  have hclean : clean_text "uh" = "" := by decide
  have hcond : ¬(("uh" : String) = "" ∨ ("uh" : String).length < 2) := by decide
  simp only [finalize_current_utterance, Utterance.duration, min_utterance_duration,
    hstrip, hclean]
  norm_num [hcond]

/-- C5, corrected.  When a fragment continues the open utterance of the same
speaker within the pause threshold and below the maximum duration, the text
is appended space-joined, the end time advances to the fragment's end time,
and — provided the open utterance's confidence is positive — the confidence
becomes the two-point mean; together with the concrete Scenario A run:
fragments (S1, "hello", 0–1) and (S1, "world", 1.2–2) merge into one open
utterance "hello world" of duration 2 s. -/
theorem merge_appends_and_averages :
    (∀ (st : SegmenterState) (u : Utterance) (t : ℚ) (seg : TranscriptionSegment) (now : ℚ),
      st.current_utterance = some u →
      st.last_activity_time = some t →
      seg.speaker = u.speaker →
      (now - 2 + seg.start_time) - t < min_pause_duration →
      (now - 2 + seg.start_time) - u.start_time < max_utterance_duration →
      0 < u.confidence → u.text ≠ "" → seg.text ≠ "" →
      process_one_segment st now seg =
        ({ current_utterance :=
             some { u with text := u.text ++ " " ++ seg.text,
                           end_time := now - 2 + seg.end_time,
                           confidence := (u.confidence + seg.confidence) / 2 },
           last_activity_time := some (now - 2 + seg.end_time) }, none)) ∧
    process_segments initialSegmenterState 2
        [{ text := "hello", speaker := "S1", start_time := 0, end_time := 1,
           confidence := 9/10 },
         { text := "world", speaker := "S1", start_time := 6/5, end_time := 2,
           confidence := 7/10 }] =
      ({ current_utterance := some { speaker := "S1", text := "hello world",
                                     start_time := 0, end_time := 2, confidence := 4/5,
                                     pause_duration := 0 },
         last_activity_time := some 2 }, []) ∧
    Utterance.duration { speaker := "S1", text := "hello world", start_time := 0,
                         end_time := 2, confidence := 4/5, pause_duration := 0 } = 2 := by
  refine ⟨?_, ?_, ?_⟩
  · intro st u t seg now hcu hla hsp hgap hdur hconf hut hst
    obtain ⟨cu, la⟩ := st
    dsimp only at hcu hla
    subst hcu
    subst hla
    have hssn : should_start_new_utterance
        { current_utterance := some u, last_activity_time := some t } seg
        (now - 2 + seg.start_time) = false := by
      simp only [should_start_new_utterance]
      rw [if_neg (by simp [hsp]), if_neg (by simp [not_le.mpr hgap]),
        if_neg (not_le.mpr hdur)]
    simp only [process_one_segment, hssn, Bool.false_eq_true, if_false,
      continue_current_utterance]
    rw [if_pos ⟨hut, hst⟩, if_pos hconf]
  · have h1 : ¬(("hello" : String) = "") := by decide
    have h2 : ¬(("world" : String) = "") := by decide
    have happ : ("hello" : String) ++ " " ++ "world" = "hello world" := by decide
    simp only [process_segments, List.foldl, process_one_segment,
      should_start_new_utterance, continue_current_utterance,
      finalize_current_utterance, should_finalize_timeout, initialSegmenterState,
      Utterance.duration, min_pause_duration, max_utterance_duration,
      min_utterance_duration]
    norm_num [h1, h2, happ]
  · simp only [Utterance.duration]
    norm_num

/-- Witness for the corrected C5 merge theorem at concrete inputs. -/
theorem merge_appends_and_averages_witness :
    process_one_segment
        { current_utterance := some { speaker := "S1", text := "hello", start_time := 0,
                                      end_time := 1, confidence := 9/10, pause_duration := 0 },
          last_activity_time := some 1 } 2
        { text := "world", speaker := "S1", start_time := 6/5, end_time := 2,
          confidence := 7/10 } =
      ({ current_utterance :=
           some { speaker := "S1", text := "hello" ++ " " ++ "world", start_time := 0,
                  end_time := 2 - 2 + 2, confidence := (9/10 + 7/10) / 2,
                  pause_duration := 0 },
         last_activity_time := some (2 - 2 + 2) }, none) := by
  exact merge_appends_and_averages.1
    { current_utterance := some { speaker := "S1", text := "hello", start_time := 0,
                                  end_time := 1, confidence := 9/10, pause_duration := 0 },
      last_activity_time := some 1 }
    { speaker := "S1", text := "hello", start_time := 0, end_time := 1,
      confidence := 9/10, pause_duration := 0 } 1
    { text := "world", speaker := "S1", start_time := 6/5, end_time := 2,
      confidence := 7/10 } 2
    rfl rfl rfl (by norm_num [min_pause_duration])
    (by norm_num [max_utterance_duration]) (by norm_num) (by decide) (by decide)

/-- C5, counterexample to the claim as stated: when the open utterance's
confidence is 0, merging a fragment of confidence 4/5 sets the confidence to
the fragment's own 4/5, not to the two-point mean 2/5 the claim demands. -/
theorem merge_confidence_cex :
    ((process_segments initialSegmenterState 2
        [{ text := "hello", speaker := "S1", start_time := 0, end_time := 1,
           confidence := 0 },
         { text := "world", speaker := "S1", start_time := 6/5, end_time := 2,
           confidence := 4/5 }]).1.current_utterance.map Utterance.confidence)
      = some (4/5) ∧
    some ((4 : ℚ)/5) ≠ some (((0 : ℚ) + 4/5) / 2) := by
  constructor
  · have h1 : ¬(("hello" : String) = "") := by decide
    have h2 : ¬(("world" : String) = "") := by decide
    have happ : ("hello" : String) ++ " " ++ "world" = "hello world" := by decide
    simp only [process_segments, List.foldl, process_one_segment,
      should_start_new_utterance, continue_current_utterance,
      finalize_current_utterance, should_finalize_timeout, initialSegmenterState,
      Utterance.duration, min_pause_duration, max_utterance_duration,
      min_utterance_duration]
    norm_num [h1, h2, happ]
  · simp only [ne_eq, Option.some.injEq]
    norm_num

/-- C6, confirmed.  A fragment with a different speaker, or arriving at or
beyond the pause threshold after the last activity, starts a fresh utterance
whose text is exactly the fragment's text, while the open utterance goes
through finalization separately; together with the concrete Scenario C run:
(S1, "hi", 0–1) then (S2, "hi", 1–2) at zero gap produce two separate
utterances. -/
theorem boundary_starts_new_utterance :
    (∀ (st : SegmenterState) (u : Utterance) (t : ℚ) (seg : TranscriptionSegment) (now : ℚ),
      st.current_utterance = some u →
      st.last_activity_time = some t →
      (seg.speaker ≠ u.speaker ∨ min_pause_duration ≤ (now - 2 + seg.start_time) - t) →
      process_one_segment st now seg =
        ({ current_utterance :=
             some { speaker := seg.speaker, text := seg.text,
                    start_time := now - 2 + seg.start_time,
                    end_time := now - 2 + seg.end_time,
                    confidence := seg.confidence, pause_duration := 0 },
           last_activity_time := some (now - 2 + seg.end_time) },
         (finalize_current_utterance st now).2)) ∧
    process_segments initialSegmenterState 2
        [{ text := "hi", speaker := "S1", start_time := 0, end_time := 1,
           confidence := 9/10 },
         { text := "hi", speaker := "S2", start_time := 1, end_time := 2,
           confidence := 9/10 }] =
      ({ current_utterance := some { speaker := "S2", text := "hi", start_time := 1,
                                     end_time := 2, confidence := 9/10,
                                     pause_duration := 0 },
         last_activity_time := some 2 },
       [{ speaker := "S1", text := "hi", start_time := 0, end_time := 1,
          confidence := 9/10, pause_duration := 1 }]) := by
  constructor
  · intro st u t seg now hcu hla hcond
    obtain ⟨cu, la⟩ := st
    dsimp only at hcu hla
    subst hcu
    subst hla
    have hssn : should_start_new_utterance
        { current_utterance := some u, last_activity_time := some t } seg
        (now - 2 + seg.start_time) = true := by
      simp only [should_start_new_utterance]
      rcases hcond with hsp | hgap
      · rw [if_pos hsp]
      · by_cases hsp2 : seg.speaker ≠ u.speaker
        · rw [if_pos hsp2]
        · rw [if_neg hsp2, if_pos (decide_eq_true hgap)]
    rcases hfin : finalize_current_utterance
        { current_utterance := some u, last_activity_time := some t } now
      with ⟨⟨a, b⟩, em⟩
    simp only [process_one_segment, hssn, if_true, hfin]
  · have hclean : clean_text "hi" = "hi" := by decide
    have hS : ¬(("S2" : String) = "S1") := by decide
    have hcond : ¬(pyStrip "hi" = "" ∨ (pyStrip "hi").length < 2) := by decide
    simp only [process_segments, List.foldl, process_one_segment,
      should_start_new_utterance, continue_current_utterance,
      finalize_current_utterance, should_finalize_timeout, initialSegmenterState,
      Utterance.duration, min_pause_duration, max_utterance_duration,
      min_utterance_duration]
    norm_num [hS, hcond, hclean]

/-- Witness for the C6 boundary theorem at the Scenario C fragment pair. -/
theorem boundary_starts_new_utterance_witness :
    process_one_segment
        { current_utterance := some { speaker := "S1", text := "hi", start_time := 0,
                                      end_time := 1, confidence := 9/10, pause_duration := 0 },
          last_activity_time := some 1 } 2
        { text := "hi", speaker := "S2", start_time := 1, end_time := 2,
          confidence := 9/10 } =
      ({ current_utterance :=
           some { speaker := "S2", text := "hi", start_time := 2 - 2 + 1,
                  end_time := 2 - 2 + 2, confidence := 9/10, pause_duration := 0 },
         last_activity_time := some (2 - 2 + 2) },
       (finalize_current_utterance
          { current_utterance := some { speaker := "S1", text := "hi", start_time := 0,
                                        end_time := 1, confidence := 9/10,
                                        pause_duration := 0 },
            last_activity_time := some 1 } 2).2) := by
  exact boundary_starts_new_utterance.1
    { current_utterance := some { speaker := "S1", text := "hi", start_time := 0,
                                  end_time := 1, confidence := 9/10, pause_duration := 0 },
      last_activity_time := some 1 }
    { speaker := "S1", text := "hi", start_time := 0, end_time := 1,
      confidence := 9/10, pause_duration := 0 } 1
    { text := "hi", speaker := "S2", start_time := 1, end_time := 2,
      confidence := 9/10 } 2
    rfl rfl (Or.inl (by decide))

/-- A key absent from a dict stays absent after dropping the oldest entry. -/
theorem dictContains_drop {V : Type} (l : List (String × V)) (k : String)
    (h : dictContains l k = false) : dictContains (l.drop 1) k = false := by
  cases l with
  | nil => simp [dictContains]
  | cons a t =>
    simp only [dictContains, List.any_cons, Bool.or_eq_false_iff] at h
    simpa [dictContains] using h.2

/-- C3, confirmed.  A `set` with a fresh key on a cache at capacity drops
exactly the earliest-inserted entry and appends the new binding at the end;
`get` is a pure read that cannot move entries.  The conjunct runs Scenario D:
with capacity 2, after inserting keys A and B, querying A (a hit), then
inserting C, the key A misses while B and C hit. -/
theorem cache_fifo_eviction :
    (∀ (V : Type) (c : SentimentCache V) (text speaker : String) (v : V),
      c.entries.length = c.max_size →
      dictContains c.entries (speaker ++ ":" ++ text) = false →
      (cache_set c text speaker v).entries =
        c.entries.drop 1 ++ [(speaker ++ ":" ++ text, v)]) ∧
    cache_get (cache_set (cache_set (mkSentimentCache ℕ 2) "A" "s" 1) "B" "s" 2)
        "A" "s" = some 1 ∧
    cache_get (cache_set (cache_set (cache_set (mkSentimentCache ℕ 2) "A" "s" 1)
        "B" "s" 2) "C" "s" 3) "A" "s" = none ∧
    cache_get (cache_set (cache_set (cache_set (mkSentimentCache ℕ 2) "A" "s" 1)
        "B" "s" 2) "C" "s" 3) "B" "s" = some 2 ∧
    cache_get (cache_set (cache_set (cache_set (mkSentimentCache ℕ 2) "A" "s" 1)
        "B" "s" 2) "C" "s" 3) "C" "s" = some 3 := by
  refine ⟨?_, by decide, by decide, by decide, by decide⟩
  intro V c text speaker v hlen hfresh
  simp only [cache_set]
  rw [if_pos (ge_of_eq hlen)]
  have h2 := dictContains_drop c.entries (speaker ++ ":" ++ text) hfresh
  simp only [dictSet, h2, Bool.false_eq_true, if_false]

/-- Witness for the C3 eviction theorem on a concrete two-entry cache at
capacity. -/
theorem cache_fifo_eviction_witness :
    (cache_set
        { entries := [("s:A", (1 : ℕ)), ("s:B", 2)], max_size := 2 }
        "C" "s" 3).entries =
      [("s:A", (1 : ℕ)), ("s:B", 2)].drop 1 ++ [("s" ++ ":" ++ "C", 3)] := by
  exact cache_fifo_eviction.1 ℕ
    { entries := [("s:A", 1), ("s:B", 2)], max_size := 2 } "C" "s" 3
    (by decide) (by decide)

/-- C10, confirmed.  The composite cache key conflates the distinct
speaker/text pairs ("a", "b:c") and ("a:b", "c"): both map to the key
"a:b:c", so a `get` for the second pair returns the vector stored for the
first instead of a miss. -/
theorem cache_key_collision :
    (("a" : String), ("b:c" : String)) ≠ (("a:b" : String), ("c" : String)) ∧
    cache_get (cache_set (mkSentimentCache ℕ 1000) "b:c" "a" 42) "c" "a:b" =
      some 42 := by
  exact ⟨by decide, by decide⟩

/-- A non-failing WebSocket client always appears among the delivered ids of
a broadcast, whatever the other clients do. -/
theorem mem_broadcast_of_ok (cs : List WsClient) (e : AnalysisEvent) (c : WsClient)
    (hc : c ∈ cs) (hf : c.fails = false) :
    c.id ∈ (broadcast_to_websockets cs e).2 := by
  induction cs with
  | nil => cases hc
  | cons a t ih =>
    rcases List.mem_cons.mp hc with rfl | hmem
    · simp [broadcast_to_websockets, websocket_send, hf]
    · by_cases hfa : a.fails
      · simpa [broadcast_to_websockets, websocket_send, hfa] using ih hmem
      · simp only [broadcast_to_websockets, websocket_send, hfa, Bool.false_eq_true,
          if_false]
        exact List.mem_cons_of_mem _ (ih hmem)

/-- A non-failing callback always appears among the invoked ids. -/
theorem mem_call_callbacks_of_ok (cbs : List CallbackSink) (e : AnalysisEvent)
    (cb : CallbackSink) (hc : cb ∈ cbs) (hf : cb.fails = false) :
    cb.id ∈ call_callbacks cbs e := by
  induction cbs with
  | nil => cases hc
  | cons a t ih =>
    rcases List.mem_cons.mp hc with rfl | hmem
    · simp [call_callbacks, callback_invoke, hf]
    · by_cases hfa : a.fails
      · simpa [call_callbacks, callback_invoke, hfa] using ih hmem
      · simp only [call_callbacks, callback_invoke, hfa, Bool.false_eq_true, if_false]
        exact List.mem_cons_of_mem _ (ih hmem)

/-- C4, confirmed.  Within one `emit_event` call every destination whose own
delivery does not fail receives the event, regardless of failures at any
other destination; each failure is caught at its destination (the embedding
of `emit_event` is a total function on states, mirroring that no exception
escapes it). -/
theorem emit_isolates_sink_failures :
    ∀ (s : EventEmitterState) (e : AnalysisEvent),
      (∀ c, c ∈ s.websocket_clients → c.fails = false →
        c.id ∈ (emit_event s e).2.ws) ∧
      (∀ f, s.file_output = some f → f.fails = false →
        (emit_event s e).2.file_written = true ∧
        (emit_event s e).1.file_output = some { f with written := f.written ++ [e] }) ∧
      (∀ cb, cb ∈ s.callbacks → cb.fails = false →
        cb.id ∈ (emit_event s e).2.callback_ids) := by
  intro s e
  refine ⟨?_, ?_, ?_⟩
  · intro c hc hf
    exact mem_broadcast_of_ok s.websocket_clients e c hc hf
  · intro f hfo hf
    constructor
    · show (write_to_file s.file_output e).2 = true
      rw [hfo]
      simp [write_to_file, file_write, hf]
    · show (write_to_file s.file_output e).1 = _
      rw [hfo]
      simp [write_to_file, file_write, hf]
  · intro cb hcb hf
    exact mem_call_callbacks_of_ok s.callbacks e cb hcb hf

/-- Witness for the C4 isolation theorem: with one failing client, one
failing callback and a healthy file sink, the healthy client, the file sink
and the healthy callback all receive the event. -/
theorem emit_isolates_sink_failures_witness :
    2 ∈ (emit_event
        { websocket_clients := [{ id := 1, fails := true }, { id := 2, fails := false }],
          file_output := some { fails := false, written := [] },
          callbacks := [{ id := 5, fails := true }, { id := 6, fails := false }],
          event_history := [], max_history := 1000 } sampleEvent).2.ws ∧
    (emit_event
        { websocket_clients := [{ id := 1, fails := true }, { id := 2, fails := false }],
          file_output := some { fails := false, written := [] },
          callbacks := [{ id := 5, fails := true }, { id := 6, fails := false }],
          event_history := [], max_history := 1000 } sampleEvent).2.file_written = true ∧
    6 ∈ (emit_event
        { websocket_clients := [{ id := 1, fails := true }, { id := 2, fails := false }],
          file_output := some { fails := false, written := [] },
          callbacks := [{ id := 5, fails := true }, { id := 6, fails := false }],
          event_history := [], max_history := 1000 } sampleEvent).2.callback_ids := by
  refine ⟨?_, ?_, ?_⟩
  · exact (emit_isolates_sink_failures
      { websocket_clients := [{ id := 1, fails := true }, { id := 2, fails := false }],
        file_output := some { fails := false, written := [] },
        callbacks := [{ id := 5, fails := true }, { id := 6, fails := false }],
        event_history := [], max_history := 1000 } sampleEvent).1
      { id := 2, fails := false } (by simp) rfl
  · exact ((emit_isolates_sink_failures
      { websocket_clients := [{ id := 1, fails := true }, { id := 2, fails := false }],
        file_output := some { fails := false, written := [] },
        callbacks := [{ id := 5, fails := true }, { id := 6, fails := false }],
        event_history := [], max_history := 1000 } sampleEvent).2.1
      { fails := false, written := [] } rfl rfl).1
  · exact (emit_isolates_sink_failures
      { websocket_clients := [{ id := 1, fails := true }, { id := 2, fails := false }],
        file_output := some { fails := false, written := [] },
        callbacks := [{ id := 5, fails := true }, { id := 6, fails := false }],
        event_history := [], max_history := 1000 } sampleEvent).2.2
      { id := 6, fails := false } (by simp) rfl

/-- One `emit_event` call leaves the configured bound unchanged. -/
theorem emit_event_max (s : EventEmitterState) (e : AnalysisEvent) :
    (emit_event s e).1.max_history = s.max_history := rfl

/-- The retained history after a sequence of emits is exactly the suffix of
the appended stream that fits the bound, and the bound itself never
changes. -/
theorem emit_events_history (evs : List AnalysisEvent) :
    ∀ (s : EventEmitterState), s.event_history.length ≤ s.max_history →
      (emit_events s evs).event_history =
        (s.event_history ++ evs).drop
          ((s.event_history ++ evs).length - s.max_history) ∧
      (emit_events s evs).max_history = s.max_history := by
  induction evs with
  | nil =>
    intro s h
    refine ⟨?_, rfl⟩
    rw [List.append_nil, Nat.sub_eq_zero_of_le h, List.drop_zero]
    rfl
  | cons e rest ih =>
    intro s h
    have hstep : emit_events s (e :: rest) = emit_events ((emit_event s e).1) rest := rfl
    have hh : (emit_event s e).1.event_history =
        (s.event_history ++ [e]).drop ((s.event_history ++ [e]).length - s.max_history) := by
      show (if (s.event_history ++ [e]).length > s.max_history
            then (s.event_history ++ [e]).drop 1 else s.event_history ++ [e]) = _
      by_cases hc : (s.event_history ++ [e]).length > s.max_history
      · rw [if_pos hc]
        congr 1
        simp only [List.length_append, List.length_cons, List.length_nil] at hc ⊢
        omega
      · rw [if_neg hc]
        have : (s.event_history ++ [e]).length - s.max_history = 0 := by omega
        rw [this, List.drop_zero]
    have hlen : (emit_event s e).1.event_history.length ≤ (emit_event s e).1.max_history := by
      rw [emit_event_max, hh, List.length_drop]
      simp only [List.length_append, List.length_cons, List.length_nil] at h ⊢
      omega
    obtain ⟨ih1, ih2⟩ := ih ((emit_event s e).1) hlen
    rw [hstep]
    refine ⟨?_, by rw [ih2, emit_event_max]⟩
    rw [ih1, hh, emit_event_max]
    have hd : (s.event_history ++ [e]).length - s.max_history ≤
        (s.event_history ++ [e]).length := Nat.sub_le _ _
    rw [← List.drop_append_of_le_length hd, List.drop_drop]
    congr 1
    · rw [List.length_drop]
      simp only [List.length_append, List.length_cons, List.length_nil]
      omega
    · simp

/-- C7, confirmed.  From a fresh hub, after any sequence of emits the
retained history holds at most 1000 events; and whenever a hub at its bound
emits, the resulting history is the appended history with its oldest entry
popped. -/
theorem history_bounded :
    (∀ evs : List AnalysisEvent,
      (emit_events initialEmitterState evs).event_history.length ≤ 1000) ∧
    (∀ (s : EventEmitterState) (e : AnalysisEvent),
      s.event_history.length = s.max_history →
      (emit_event s e).1.event_history = (s.event_history ++ [e]).drop 1) := by
  constructor
  · intro evs
    have h := (emit_events_history evs initialEmitterState (by simp [initialEmitterState])).1
    rw [h, List.length_drop]
    simp only [initialEmitterState, List.nil_append]
    omega
  · intro s e hlen
    show (if (s.event_history ++ [e]).length > s.max_history
          then (s.event_history ++ [e]).drop 1 else s.event_history ++ [e]) = _
    rw [if_pos (by simp [hlen])]

/-- Witness for the C7 bound theorem: a hub at a bound of 2 pops the oldest
of its two retained events on the next emit. -/
theorem history_bounded_witness :
    (emit_event
        { websocket_clients := [], file_output := none, callbacks := [],
          event_history := [sampleEvent, sampleEvent], max_history := 2 }
        sampleEvent).1.event_history =
      ([sampleEvent, sampleEvent] ++ [sampleEvent]).drop 1 := by
  exact history_bounded.2
    { websocket_clients := [], file_output := none, callbacks := [],
      event_history := [sampleEvent, sampleEvent], max_history := 2 }
    sampleEvent rfl

/-- The key list of the speakers dict after one bump: unchanged when the
speaker is present, extended by the speaker otherwise. -/
theorem bump_speaker_keys (acc : List (String × ℕ)) (sp : String) :
    (bump_speaker acc sp).map Prod.fst =
      if sp ∈ acc.map Prod.fst then acc.map Prod.fst
      else acc.map Prod.fst ++ [sp] := by
  by_cases h : acc.any (fun p => p.1 == sp)
  · have hmem : sp ∈ acc.map Prod.fst := by
      simp only [List.any_eq_true, beq_iff_eq] at h
      obtain ⟨p, hp, he⟩ := h
      exact List.mem_map.mpr ⟨p, hp, he⟩
    rw [bump_speaker, if_pos h, if_pos hmem, List.map_map]
    apply List.map_congr_left
    intro p _
    dsimp only [Function.comp]
    split <;> rfl
  · have hmem : sp ∉ acc.map Prod.fst := by
      intro hx
      obtain ⟨p, hp, he⟩ := List.mem_map.mp hx
      exact h (List.any_eq_true.mpr ⟨p, hp, beq_iff_eq.mpr he⟩)
    rw [bump_speaker, if_neg h, if_neg hmem, List.map_append]
    rfl

/-- Folding the speakers dict over a speaker list keeps the key list free of
duplicates and makes its key set the union of the accumulated keys and the
speakers seen. -/
theorem speakers_fold_keys (sps : List String) :
    ∀ acc : List (String × ℕ),
      (acc.map Prod.fst).Nodup →
      ((sps.foldl bump_speaker acc).map Prod.fst).Nodup ∧
      ((sps.foldl bump_speaker acc).map Prod.fst).toFinset =
        (acc.map Prod.fst).toFinset ∪ sps.toFinset := by
  induction sps with
  | nil =>
    intro acc h
    exact ⟨h, by simp⟩
  | cons sp rest ih =>
    intro acc h
    have hk := bump_speaker_keys acc sp
    by_cases hmem : sp ∈ acc.map Prod.fst
    · rw [if_pos hmem] at hk
      obtain ⟨n1, f1⟩ := ih (bump_speaker acc sp) (by rw [hk]; exact h)
      refine ⟨n1, ?_⟩
      rw [List.foldl_cons, f1, hk]
      ext x
      simp only [Finset.mem_union, List.mem_toFinset, List.toFinset_cons,
        Finset.mem_insert]
      constructor
      · rintro (hx | hx)
        · exact Or.inl hx
        · exact Or.inr (Or.inr hx)
      · rintro (hx | hx | hx)
        · exact Or.inl hx
        · exact Or.inl (hx ▸ hmem)
        · exact Or.inr hx
    · rw [if_neg hmem] at hk
      have hnodup2 : ((bump_speaker acc sp).map Prod.fst).Nodup := by
        rw [hk]
        simp only [List.nodup_append, List.nodup_cons, List.not_mem_nil,
          not_false_iff, List.nodup_nil, and_true, true_and]
        refine ⟨h, ?_⟩
        intro x hx hx2
        simp only [List.mem_singleton] at hx2
        exact hmem (hx2 ▸ hx)
      obtain ⟨n1, f1⟩ := ih (bump_speaker acc sp) hnodup2
      refine ⟨n1, ?_⟩
      rw [List.foldl_cons, f1, hk]
      ext x
      simp only [Finset.mem_union, List.mem_toFinset, List.toFinset_cons,
        Finset.mem_insert, List.mem_append, List.mem_singleton]
      constructor
      · rintro ((hx | hx) | hx)
        · exact Or.inl hx
        · exact Or.inr (Or.inl hx)
        · exact Or.inr (Or.inr hx)
      · rintro (hx | hx | hx)
        · exact Or.inl (Or.inl hx)
        · exact Or.inl (Or.inr hx)
        · exact Or.inr hx

/-- The speakers dict built by `get_event_stats` has exactly one entry per
distinct speaker of the retained history. -/
theorem speakers_dict_length (hist : List AnalysisEvent) :
    (hist.foldl (fun acc ev => bump_speaker acc ev.speaker) []).length =
      (hist.map AnalysisEvent.speaker).toFinset.card := by
  rw [← List.foldl_map]
  obtain ⟨hn, hf⟩ := speakers_fold_keys (hist.map AnalysisEvent.speaker) [] (by simp)
  have hlen := List.length_map ((hist.map AnalysisEvent.speaker).foldl bump_speaker [])
    Prod.fst
  rw [← hlen, ← List.toFinset_card_of_nodup hn, hf]
  simp

/-- A broadcast removes no client when no client fails. -/
theorem broadcast_preserves_clients (cs : List WsClient) (e : AnalysisEvent)
    (h : ∀ c ∈ cs, c.fails = false) :
    (broadcast_to_websockets cs e).1 = cs := by
  induction cs with
  | nil => rfl
  | cons a t ih =>
    have ha := h a (List.mem_cons_self a t)
    simp only [broadcast_to_websockets, websocket_send, ha, Bool.false_eq_true,
      if_false]
    rw [ih (fun c hc => h c (List.mem_cons_of_mem a hc))]

/-- Emitting any number of events removes no client when no client fails. -/
theorem emit_events_clients (evs : List AnalysisEvent) :
    ∀ s : EventEmitterState, (∀ c ∈ s.websocket_clients, c.fails = false) →
      (emit_events s evs).websocket_clients = s.websocket_clients := by
  induction evs with
  | nil => intro s _; rfl
  | cons e rest ih =>
    intro s h
    have hstep : (emit_event s e).1.websocket_clients = s.websocket_clients := by
      show (broadcast_to_websockets s.websocket_clients e).1 = s.websocket_clients
      exact broadcast_preserves_clients s.websocket_clients e h
    have := ih ((emit_event s e).1) (by rw [hstep]; exact h)
    rw [show emit_events s (e :: rest) = emit_events ((emit_event s e).1) rest from rfl,
      this, hstep]

set_option maxRecDepth 4000 in
/-- C8, counterexample to the claim as stated: after 1001 emits the stats
dict reports `total_events = 1000` (the retained history is capped), not the
1001 events actually emitted. -/
theorem stats_total_events_cex :
    (get_event_stats (emit_events initialEmitterState
        (List.replicate 1001 sampleEvent))).total_events ≠ 1001 := by
  have h := (emit_events_history (List.replicate 1001 sampleEvent)
    initialEmitterState (by simp [initialEmitterState])).1
  have hh : (emit_events initialEmitterState
      (List.replicate 1001 sampleEvent)).event_history =
      List.replicate 1000 sampleEvent := by
    rw [h]
    simp only [initialEmitterState, List.nil_append]
    rw [List.length_replicate, show (1001 : ℕ) - 1000 = 1 from rfl,
      show (1001 : ℕ) = 1000 + 1 from rfl, List.replicate_succ]
    rfl
  have hne2 : ¬((List.replicate 1000 sampleEvent).isEmpty = true) := by
    rw [show (1000 : ℕ) = 999 + 1 from rfl, List.replicate_succ]
    simp
  rw [get_event_stats, hh, if_neg hne2]
  simp

/-- C8, corrected.  The stats dict reports counts over the retained history:
its total is the number of emits capped at the bound 1000, its distinct
speaker count covers only retained events, and the subscriber count is the
current client-set size; with an empty history only a zero total is
reported. -/
theorem stats_report_retained :
    ∀ (cs : List WsClient) (evs : List AnalysisEvent),
      (∀ c ∈ cs, c.fails = false) → evs ≠ [] →
      (get_event_stats (emit_events
          { websocket_clients := cs, file_output := none, callbacks := [],
            event_history := [], max_history := 1000 } evs)).total_events =
        min evs.length 1000 ∧
      (get_event_stats (emit_events
          { websocket_clients := cs, file_output := none, callbacks := [],
            event_history := [], max_history := 1000 } evs)).websocket_clients =
        some cs.length ∧
      (get_event_stats (emit_events
          { websocket_clients := cs, file_output := none, callbacks := [],
            event_history := [], max_history := 1000 } evs)).unique_speakers =
        some ((emit_events
            { websocket_clients := cs, file_output := none, callbacks := [],
              event_history := [], max_history := 1000 }
            evs).event_history.map AnalysisEvent.speaker).toFinset.card := by
  intro cs evs hcs hne
  have hh := (emit_events_history evs
    { websocket_clients := cs, file_output := none, callbacks := [],
      event_history := [], max_history := 1000 } (by simp)).1
  simp only [List.nil_append] at hh
  have hlen : (emit_events
      { websocket_clients := cs, file_output := none, callbacks := [],
        event_history := [], max_history := 1000 } evs).event_history.length =
      min evs.length 1000 := by
    rw [hh, List.length_drop]
    omega
  have hpos : 0 < evs.length := List.length_pos.mpr hne
  have hnem : ¬((emit_events
      { websocket_clients := cs, file_output := none, callbacks := [],
        event_history := [], max_history := 1000 } evs).event_history.isEmpty = true) := by
    rw [List.isEmpty_iff, ← List.length_eq_zero]
    omega
  have hcl := emit_events_clients evs
    { websocket_clients := cs, file_output := none, callbacks := [],
      event_history := [], max_history := 1000 } hcs
  refine ⟨?_, ?_, ?_⟩
  · rw [get_event_stats, if_neg hnem]
    exact hlen
  · rw [get_event_stats, if_neg hnem]
    show some ((emit_events _ evs).websocket_clients.length) = some cs.length
    rw [hcl]
  · rw [get_event_stats, if_neg hnem]
    show some (((emit_events _ evs).event_history.foldl
        (fun acc ev => bump_speaker acc ev.speaker) []).length) = _
    exact congrArg some (speakers_dict_length _)

/-- Witness for the corrected C8 stats theorem with one healthy subscriber
and one emitted event. -/
theorem stats_report_retained_witness :
    (get_event_stats (emit_events
        { websocket_clients := [{ id := 3, fails := false }], file_output := none,
          callbacks := [], event_history := [], max_history := 1000 }
        [sampleEvent])).total_events = min 1 1000 ∧
    (get_event_stats (emit_events
        { websocket_clients := [{ id := 3, fails := false }], file_output := none,
          callbacks := [], event_history := [], max_history := 1000 }
        [sampleEvent])).websocket_clients = some 1 ∧
    (get_event_stats (emit_events
        { websocket_clients := [{ id := 3, fails := false }], file_output := none,
          callbacks := [], event_history := [], max_history := 1000 }
        [sampleEvent])).unique_speakers =
      some ((emit_events
          { websocket_clients := [{ id := 3, fails := false }], file_output := none,
            callbacks := [], event_history := [], max_history := 1000 }
          [sampleEvent]).event_history.map AnalysisEvent.speaker).toFinset.card := by
  have h := stats_report_retained [{ id := 3, fails := false }] [sampleEvent]
    (by intro c hc; simp only [List.mem_singleton] at hc; rw [hc])
    (by simp)
  exact ⟨h.1, h.2.1, h.2.2⟩

/-- C9, counterexample to the claim as stated: a component whose only sample
has duration 0 ms makes `get_component_stats` raise `ZeroDivisionError` in
the throughput computation, so the statistics are not well-defined when
every recorded duration is 0. -/
theorem throughput_zero_division_cex :
    get_component_stats "events" [zeroDurationMetric] =
      Except.error PyException.zeroDivision := by
  have hcm : ([zeroDurationMetric].filter (fun m => m.component_name == "events")) =
      [zeroDurationMetric] := by
    simp [List.filter, zeroDurationMetric]
  simp only [get_component_stats, hcm]
  norm_num [pySum, pyDiv, zeroDurationMetric]

/-- C9, corrected.  For a component with at least one sample whose total
recorded duration is nonzero, the statistics computation succeeds and
reports a throughput of 1000 divided by the average duration; when the
average is 0 the division raises instead. -/
theorem throughput_when_avg_nonzero :
    ∀ (name : String) (metrics : List PerformanceMetrics),
      metrics.filter (fun m => m.component_name == name) ≠ [] →
      pySum ((metrics.filter (fun m => m.component_name == name)).map
        (fun m => m.duration_ms)) ≠ 0 →
      get_component_stats name metrics =
        Except.ok
          { component := name,
            total_operations :=
              (metrics.filter (fun m => m.component_name == name)).length,
            avg_duration_ms :=
              pySum ((metrics.filter (fun m => m.component_name == name)).map
                  (fun m => m.duration_ms)) /
                (((metrics.filter (fun m => m.component_name == name)).map
                  (fun m => m.duration_ms)).length : ℚ),
            min_duration_ms :=
              pyListMin ((metrics.filter (fun m => m.component_name == name)).map
                (fun m => m.duration_ms)),
            max_duration_ms :=
              pyListMax ((metrics.filter (fun m => m.component_name == name)).map
                (fun m => m.duration_ms)),
            total_duration_ms :=
              pySum ((metrics.filter (fun m => m.component_name == name)).map
                (fun m => m.duration_ms)),
            operations_per_second :=
              1000 /
                (pySum ((metrics.filter (fun m => m.component_name == name)).map
                    (fun m => m.duration_ms)) /
                  (((metrics.filter (fun m => m.component_name == name)).map
                    (fun m => m.duration_ms)).length : ℚ)),
            last_operation_time :=
              pyListMax ((metrics.filter (fun m => m.component_name == name)).map
                (fun m => m.timestamp)) } := by
  intro name metrics h1 h2
  have hlen0 : ((metrics.filter (fun m => m.component_name == name)).map
      (fun m => m.duration_ms)).length ≠ 0 := by
    rw [List.length_map]
    intro hz
    exact h1 (List.length_eq_zero.mp hz)
  have hcast : ((((metrics.filter (fun m => m.component_name == name)).map
      (fun m => m.duration_ms)).length : ℚ)) ≠ 0 := Nat.cast_ne_zero.mpr hlen0
  have havg : pySum ((metrics.filter (fun m => m.component_name == name)).map
      (fun m => m.duration_ms)) /
        (((metrics.filter (fun m => m.component_name == name)).map
          (fun m => m.duration_ms)).length : ℚ) ≠ 0 := div_ne_zero h2 hcast
  simp only [get_component_stats]
  rw [if_neg (by simpa [List.isEmpty_iff] using h1)]
  simp only [pyDiv, if_neg hcast, if_neg havg]

/-- Witness for the corrected C9 theorem on one sample of duration 5 ms. -/
theorem throughput_when_avg_nonzero_witness :
    get_component_stats "a" [fiveMsMetric] =
      Except.ok
        { component := "a",
          total_operations :=
            ([fiveMsMetric].filter (fun m => m.component_name == "a")).length,
          avg_duration_ms :=
            pySum (([fiveMsMetric].filter (fun m => m.component_name == "a")).map
                (fun m => m.duration_ms)) /
              ((([fiveMsMetric].filter (fun m => m.component_name == "a")).map
                (fun m => m.duration_ms)).length : ℚ),
          min_duration_ms :=
            pyListMin (([fiveMsMetric].filter (fun m => m.component_name == "a")).map
              (fun m => m.duration_ms)),
          max_duration_ms :=
            pyListMax (([fiveMsMetric].filter (fun m => m.component_name == "a")).map
              (fun m => m.duration_ms)),
          total_duration_ms :=
            pySum (([fiveMsMetric].filter (fun m => m.component_name == "a")).map
              (fun m => m.duration_ms)),
          operations_per_second :=
            1000 /
              (pySum (([fiveMsMetric].filter (fun m => m.component_name == "a")).map
                  (fun m => m.duration_ms)) /
                ((([fiveMsMetric].filter (fun m => m.component_name == "a")).map
                  (fun m => m.duration_ms)).length : ℚ)),
          last_operation_time :=
            pyListMax (([fiveMsMetric].filter (fun m => m.component_name == "a")).map
              (fun m => m.timestamp)) } := by
  exact throughput_when_avg_nonzero "a" [fiveMsMetric]
    (by simp [List.filter, fiveMsMetric])
    (by norm_num [pySum, List.filter, fiveMsMetric])

/-- C1, counterexample to the claim as stated: the sentiment fallback is not
deterministic.  On the same text and the same API failure, two admissible
random jitters (both within the `uniform(-0.1, 0.1)` range the mock draws
from) produce different fallback vectors. -/
theorem fallback_not_deterministic_cex :
    analyze_utterance true "x" (Except.error PyException.collaboratorFailure)
        (fun _ => 1/10) ≠
      analyze_utterance true "x" (Except.error PyException.collaboratorFailure)
        (fun _ => -(1/10)) := by
  have hx : ¬(pyStrip "x" = "") := by decide
  have hp : keyword_hits (pyLower "x") positive_words = 0 := by decide
  have hn : keyword_hits (pyLower "x") negative_words = 0 := by decide
  have e1 : analyze_utterance true "x"
      (Except.error PyException.collaboratorFailure) (fun _ => 1/10)
        SentimentLabel.Content = 3/5 := by
    simp only [analyze_utterance, mock_analysis, mock_base, hp, hn, if_neg hx,
      Bool.not_true, Bool.false_eq_true, if_false]
    norm_num [clampScore]
  have e2 : analyze_utterance true "x"
      (Except.error PyException.collaboratorFailure) (fun _ => -(1/10))
        SentimentLabel.Content = 2/5 := by
    simp only [analyze_utterance, mock_analysis, mock_base, hp, hn, if_neg hx,
      Bool.not_true, Bool.false_eq_true, if_false]
    norm_num [clampScore]
  intro hcontra
  have h := congrFun hcontra SentimentLabel.Content
  rw [e1, e2] at h
  norm_num at h

/-- C1, corrected.  A transcription-collaborator failure is absorbed inside
the collaborator as an empty fragment list, so the loop iteration returns
normally with all state unchanged; a sentiment-collaborator failure is
absorbed inside `analyze_utterance` as the keyword-mock fallback vector
(randomly jittered, hence not deterministic), which is cached and emitted,
and the iteration continues. -/
theorem collaborator_failures_recovered :
    (∀ (e : PyException) (now : ℚ) (st : SegmenterState)
       (cache : SentimentCache (SentimentLabel → ℚ)) (em : EventEmitterState)
       (key : Bool)
       (api : String → String → Except PyException (SentimentLabel → ℚ))
       (rand : SentimentLabel → ℚ),
      processing_iteration (Except.error e) now st cache em key api rand =
        Except.ok (st, cache, em)) ∧
    (∀ (cache : SentimentCache (SentimentLabel → ℚ)) (em : EventEmitterState)
       (u : Utterance) (e : PyException) (rand : SentimentLabel → ℚ),
      cache_get cache u.text u.speaker = none →
      pyStrip u.text ≠ "" →
      process_utterance cache em u true (Except.error e) rand =
        (cache_set cache u.text u.speaker (mock_analysis u.text rand),
         (emit_event em (event_from_utterance u (mock_analysis u.text rand))).1)) := by
  constructor
  · intro e now st cache em key api rand
    rfl
  · intro cache em u e rand hget hne
    simp only [process_utterance, hget, analyze_utterance, if_neg hne,
      Bool.not_true, Bool.false_eq_true, if_false]

/-- Witness for the corrected C1 theorem: a failing sentiment collaborator
on a cache miss stores and emits exactly the mock fallback vector. -/
theorem collaborator_failures_recovered_witness :
    process_utterance (mkSentimentCache (SentimentLabel → ℚ) 1000)
        initialEmitterState
        { speaker := "S1", text := "nice", start_time := 0, end_time := 1,
          confidence := 1, pause_duration := 0 }
        true (Except.error PyException.collaboratorFailure) (fun _ => 0) =
      (cache_set (mkSentimentCache (SentimentLabel → ℚ) 1000) "nice" "S1"
         (mock_analysis "nice" (fun _ => 0)),
       (emit_event initialEmitterState
          (event_from_utterance
            { speaker := "S1", text := "nice", start_time := 0, end_time := 1,
              confidence := 1, pause_duration := 0 }
            (mock_analysis "nice" (fun _ => 0)))).1) := by
  exact collaborator_failures_recovered.2
    (mkSentimentCache (SentimentLabel → ℚ) 1000) initialEmitterState
    { speaker := "S1", text := "nice", start_time := 0, end_time := 1,
      confidence := 1, pause_duration := 0 }
    PyException.collaboratorFailure (fun _ => 0) rfl (by decide)

end HappyChatty
